import Mathlib

/-!
Shallow embedding of the coordination core of the `nestjs-redis` library:
the connection registry (`RedisBaseService`), the distributed lock
(`RedisLockService`) and the pub/sub connection manager
(`RedisPubSubService`).  Each definition mirrors one function of the
TypeScript source; asynchronous store round trips are modelled by explicit
state passing, transport failures by explicit fault parameters, and thrown
exceptions by `Except`.
-/

namespace NestjsRedis

/-! ### Remote key/value store

The remote store maps keys to `(value, ttlMs)` entries; it is modelled as a
function from keys to optional entries.
-/

structure StoreEntry where
  value : String
  ttlMs : Nat
deriving Repr, DecidableEq

def Store := String → Option StoreEntry

/-- `GET key` -/
def storeGet (s : Store) (k : String) : Option String :=
  (s k).map StoreEntry.value

/-- `PTTL`-style view of a key's remaining expiry, used to observe `PEXPIRE`. -/
def storePttl (s : Store) (k : String) : Option Nat :=
  (s k).map StoreEntry.ttlMs

/-- `DEL key`: the new store and the number of removed keys. -/
def storeDel (s : Store) (k : String) : Store × Nat :=
  (fun k2 => if k2 = k then none else s k2, if (s k).isSome then 1 else 0)

/-- `PEXPIRE key ttl`: the new store and 1 iff the key existed. -/
def storePexpire (s : Store) (k : String) (ttl : Nat) : Store × Nat :=
  match s k with
  | none => (s, 0)
  | some e => (fun k2 => if k2 = k then some { e with ttlMs := ttl } else s k2, 1)

/-- `SET key value PX ttl NX`: set only if absent, with expiry.
Returns the new store and whether the reply was `OK`. -/
def storeSetNxPx (s : Store) (k v : String) (ttl : Nat) : Store × Bool :=
  match s k with
  | some _ => (s, false)
  | none => (fun k2 => if k2 = k then some ⟨v, ttl⟩ else s k2, true)

/-! ### Distributed lock: the atomic Lua scripts

`RELEASE_LOCK_SCRIPT`: if `GET KEYS[1] == ARGV[1]` then `DEL KEYS[1]` else 0.
`EXTEND_LOCK_SCRIPT`: if `GET KEYS[1] == ARGV[1]` then `PEXPIRE KEYS[1] ARGV[2]` else 0.
Both run atomically on the server; the embedding is one function application.
-/

def releaseLockScript (s : Store) (key token : String) : Store × Nat :=
  if storeGet s key = some token then storeDel s key else (s, 0)

def extendLockScript (s : Store) (key token : String) (ttlMs : Nat) : Store × Nat :=
  if storeGet s key = some token then storePexpire s key ttlMs else (s, 0)

/-! ### RedisLockService.release / RedisLockService.extend

The service wraps `client.eval(script, 1, lockKey, lockId, …)` in
`try/catch`: any transport or script-evaluation failure is caught, logged,
and turned into `false`.  `fault = true` models a transport failure, in
which the script does not execute on the server.  The return type
`Store × Bool` has no error component: these methods never throw.
-/

def lockRelease (fault : Bool) (s : Store) (lockKey lockId : String) : Store × Bool :=
  if fault then (s, false)
  else
    let r := releaseLockScript s lockKey lockId
    (r.1, r.2 = 1)

def lockExtend (fault : Bool) (s : Store) (lockKey lockId : String) (ttlMs : Nat) :
    Store × Bool :=
  if fault then (s, false)
  else
    let r := extendLockScript s lockKey lockId ttlMs
    (r.1, r.2 = 1)

theorem storeGet_eq_some_iff (s : Store) (k t : String) :
    storeGet s k = some t ↔ ∃ e, s k = some e ∧ e.value = t := by
  simp [storeGet, Option.map_eq_some']

/-- C1: `release()` succeeds iff the stored value at the lock key equals the
owner token when the script runs, and then deletes the key; `extend()`
succeeds under the same ownership condition and then resets the key's TTL;
on a value mismatch, an absent key, or a transport fault both return `false`
without throwing, and a stored value different from the token is never
deleted or re-expired. -/
theorem c1_release_extend_ownership (fault : Bool) (s : Store) (k t : String) (newTtl : Nat) :
    ((lockRelease fault s k t).2 = true ↔ fault = false ∧ storeGet s k = some t)
    ∧ (fault = false → storeGet s k = some t →
        storeGet (lockRelease fault s k t).1 k = none)
    ∧ ((lockExtend fault s k t newTtl).2 = true ↔ fault = false ∧ storeGet s k = some t)
    ∧ (fault = false → storeGet s k = some t →
        storePttl (lockExtend fault s k t newTtl).1 k = some newTtl
        ∧ storeGet (lockExtend fault s k t newTtl).1 k = some t)
    ∧ (storeGet s k ≠ some t →
        (lockRelease fault s k t).1 = s ∧ (lockExtend fault s k t newTtl).1 = s) := by
  cases fault with
  | true =>
    refine ⟨by simp [lockRelease], by simp, by simp [lockExtend], by simp, ?_⟩
    intro _
    exact ⟨by simp [lockRelease], by simp [lockExtend]⟩
  | false =>
    by_cases hown : storeGet s k = some t
    · obtain ⟨e, hse, hev⟩ := (storeGet_eq_some_iff s k t).mp hown
      refine ⟨?_, ?_, ?_, ?_, ?_⟩
      · simp [lockRelease, releaseLockScript, hown, storeDel, hse]
      · intro _ _
        have h1 : releaseLockScript s k t = storeDel s k := by
          rw [releaseLockScript, if_pos hown]
        simp [lockRelease, h1, storeDel, storeGet]
      · simp [lockExtend, extendLockScript, hown, storePexpire, hse]
      · intro _ _
        constructor
        · simp [lockExtend, extendLockScript, hown, storePexpire, hse, storePttl]
        · simp [lockExtend, extendLockScript, hown, storePexpire, hse, storeGet, ← hev]
      · intro hne; exact absurd hown hne
    · refine ⟨?_, ?_, ?_, ?_, ?_⟩
      · simp [lockRelease, releaseLockScript, hown]
      · intro _ h; exact absurd h hown
      · simp [lockExtend, extendLockScript, hown]
      · intro _ h; exact absurd h hown
      · intro _
        exact ⟨by simp [lockRelease, releaseLockScript, hown],
               by simp [lockExtend, extendLockScript, hown]⟩

/-- A concrete store holding the token `"owner1"` at key `"lock:r"`. -/
def lockStore0 : Store :=
  fun k => if k = "lock:r" then some ⟨"owner1", 500⟩ else none

/-- Concrete instantiation of `c1_release_extend_ownership`: on `lockStore0`
the owner's release succeeds and deletes the key, and the owner's extend
resets the TTL. -/
theorem c1_release_extend_ownership_witness :
    storeGet lockStore0 "lock:r" = some "owner1"
    ∧ (lockRelease false lockStore0 "lock:r" "owner1").2 = true
    ∧ storeGet (lockRelease false lockStore0 "lock:r" "owner1").1 "lock:r" = none
    ∧ storePttl (lockExtend false lockStore0 "lock:r" "owner1" 900).1 "lock:r" = some 900 :=
  have hget : storeGet lockStore0 "lock:r" = some "owner1" := rfl
  ⟨hget,
   ((c1_release_extend_ownership false lockStore0 "lock:r" "owner1" 900).1).mpr ⟨rfl, hget⟩,
   (c1_release_extend_ownership false lockStore0 "lock:r" "owner1" 900).2.1 rfl hget,
   ((c1_release_extend_ownership false lockStore0 "lock:r" "owner1" 900).2.2.2.1 rfl hget).1⟩

/-! ### RedisLockService.acquire

`acquire` computes `lockKey = 'lock:' + key`, generates a lock id, then runs
`for (attempt = 0; attempt <= retryCount; attempt++)`: each iteration awaits
`tryAcquire` (`SET lockKey lockId PX ttlMs NX`), returns a handle bound to
`(lockKey, lockId)` on success, and otherwise awaits `delay(retryDelayMs)`
before the next iteration (no delay after the last); after the loop it
returns `null`.  The outcome of attempt `i` against the concurrently
modified store is supplied by the environment as `outcome i`; the sequential
structure of the loop is recorded as an event trace. -/

inductive AcqEvent where
  | attempt (lockKey lockId : String) (ttlMs : Nat)
  | wait (ms : Nat)
deriving Repr, DecidableEq

structure LockHandle where
  key : String
  lockId : String
deriving Repr, DecidableEq

def acquireGo (outcome : Nat → Bool) (lockKey lockId : String) (ttlMs retryDelayMs : Nat) :
    Nat → Nat → List AcqEvent × Option LockHandle
  | i, 0 =>
    if outcome i then ([.attempt lockKey lockId ttlMs], some ⟨lockKey, lockId⟩)
    else ([.attempt lockKey lockId ttlMs], none)
  | i, r + 1 =>
    if outcome i then ([.attempt lockKey lockId ttlMs], some ⟨lockKey, lockId⟩)
    else
      let rest := acquireGo outcome lockKey lockId ttlMs retryDelayMs (i + 1) r
      (.attempt lockKey lockId ttlMs :: .wait retryDelayMs :: rest.1, rest.2)

/-- `RedisLockService.acquire` (defaults: `retryCount = 3`,
`retryDelayMs = 200`, `ttlMs = 10000`). -/
def acquire (outcome : Nat → Bool) (key lockId : String)
    (retryCount retryDelayMs ttlMs : Nat) : List AcqEvent × Option LockHandle :=
  acquireGo outcome ("lock:" ++ key) lockId ttlMs retryDelayMs 0 retryCount

def isAttemptEv : AcqEvent → Bool
  | .attempt _ _ _ => true
  | .wait _ => false

def countAttempts (tr : List AcqEvent) : Nat := (tr.filter isAttemptEv).length

/-- A well-formed acquire trace: attempts on the given key/id/ttl, strictly
sequential, with exactly one `wait retryDelayMs` between consecutive
attempts and none after the last. -/
def wellFormedTrace (lockKey lockId : String) (ttlMs retryDelayMs : Nat) :
    List AcqEvent → Bool
  | [AcqEvent.attempt k i t] => k == lockKey && i == lockId && t == ttlMs
  | AcqEvent.attempt k i t :: AcqEvent.wait m :: rest =>
      k == lockKey && i == lockId && t == ttlMs && m == retryDelayMs
        && wellFormedTrace lockKey lockId ttlMs retryDelayMs rest
  | _ => false

theorem countAttempts_single (k i : String) (t : Nat) :
    countAttempts [AcqEvent.attempt k i t] = 1 := rfl

theorem countAttempts_cons_cons (k i : String) (t m : Nat) (tr : List AcqEvent) :
    countAttempts (AcqEvent.attempt k i t :: AcqEvent.wait m :: tr) =
      countAttempts tr + 1 := by
  simp [countAttempts, isAttemptEv, List.filter]

theorem acquireGo_spec (outcome : Nat → Bool) (lk lid : String) (ttl d : Nat) :
    ∀ r i,
      wellFormedTrace lk lid ttl d (acquireGo outcome lk lid ttl d i r).1 = true
      ∧ 1 ≤ countAttempts (acquireGo outcome lk lid ttl d i r).1
      ∧ countAttempts (acquireGo outcome lk lid ttl d i r).1 ≤ r + 1
      ∧ ((acquireGo outcome lk lid ttl d i r).2 = none ↔
          ∀ j, j ≤ r → outcome (i + j) = false)
      ∧ (∀ h, (acquireGo outcome lk lid ttl d i r).2 = some h →
          h = ⟨lk, lid⟩
          ∧ outcome (i + (countAttempts (acquireGo outcome lk lid ttl d i r).1 - 1)) = true
          ∧ ∀ j, j < countAttempts (acquireGo outcome lk lid ttl d i r).1 - 1 →
              outcome (i + j) = false) := by
  intro r
  induction r with
  | zero =>
    intro i
    by_cases hi : outcome i = true
    · refine ⟨by simp [acquireGo, hi, wellFormedTrace], ?_, ?_, ?_, ?_⟩
      · simp [acquireGo, hi, countAttempts_single]
      · simp [acquireGo, hi, countAttempts_single]
      · simp only [acquireGo, hi, if_pos]
        constructor
        · intro hc; exact absurd hc (by simp)
        · intro hall
          exact absurd (hall 0 (Nat.le_refl 0)) (by simpa using hi)
      · intro h hh
        simp only [acquireGo, hi, if_pos, Option.some.injEq] at hh
        refine ⟨hh.symm, ?_, ?_⟩
        · simp [acquireGo, hi, countAttempts_single]
        · intro j hj
          simp [acquireGo, hi, countAttempts_single] at hj
    · rw [Bool.not_eq_true] at hi
      refine ⟨by simp [acquireGo, hi, wellFormedTrace], ?_, ?_, ?_, ?_⟩
      · simp [acquireGo, hi, countAttempts_single]
      · simp [acquireGo, hi, countAttempts_single]
      · simp only [acquireGo, hi, Bool.false_eq_true, if_false]
        constructor
        · intro _ j hj
          interval_cases j
          simpa using hi
        · intro _; trivial
      · intro h hh
        simp [acquireGo, hi] at hh
  | succ r ih =>
    intro i
    by_cases hi : outcome i = true
    · refine ⟨by simp [acquireGo, hi, wellFormedTrace], ?_, ?_, ?_, ?_⟩
      · simp [acquireGo, hi, countAttempts_single]
      · simp [acquireGo, hi, countAttempts_single]
      · simp only [acquireGo, hi, if_pos]
        constructor
        · intro hc; exact absurd hc (by simp)
        · intro hall
          exact absurd (hall 0 (Nat.zero_le _)) (by simpa using hi)
      · intro h hh
        simp only [acquireGo, hi, if_pos, Option.some.injEq] at hh
        refine ⟨hh.symm, ?_, ?_⟩
        · simp [acquireGo, hi, countAttempts_single]
        · intro j hj
          simp [acquireGo, hi, countAttempts_single] at hj
    · rw [Bool.not_eq_true] at hi
      obtain ⟨ihwf, ihlo, ihhi, ihnone, ihsome⟩ := ih (i + 1)
      have hunf : acquireGo outcome lk lid ttl d i (r + 1) =
          (AcqEvent.attempt lk lid ttl :: AcqEvent.wait d ::
            (acquireGo outcome lk lid ttl d (i + 1) r).1,
           (acquireGo outcome lk lid ttl d (i + 1) r).2) := by
        simp [acquireGo, hi]
      have hcount : countAttempts (acquireGo outcome lk lid ttl d i (r + 1)).1 =
          countAttempts (acquireGo outcome lk lid ttl d (i + 1) r).1 + 1 := by
        rw [hunf]
        exact countAttempts_cons_cons lk lid ttl d _
      refine ⟨?_, ?_, ?_, ?_, ?_⟩
      · rw [hunf]
        simp only [wellFormedTrace]
        simp [ihwf]
      · omega
      · omega
      · rw [hunf]
        simp only
        rw [ihnone]
        constructor
        · intro hall j hj
          match j with
          | 0 => simpa using hi
          | j' + 1 =>
            have : i + (j' + 1) = (i + 1) + j' := by omega
            rw [this]
            exact hall j' (by omega)
        · intro hall j hj
          have : (i + 1) + j = i + (j + 1) := by omega
          rw [this]
          exact hall (j + 1) (by omega)
      · intro h hh
        rw [hunf] at hh
        simp only at hh
        obtain ⟨hhe, hsucc, hprev⟩ := ihsome h hh
        refine ⟨hhe, ?_, ?_⟩
        · rw [hcount]
          have hc1 : 1 ≤ countAttempts (acquireGo outcome lk lid ttl d (i + 1) r).1 := ihlo
          have : i + (countAttempts (acquireGo outcome lk lid ttl d (i + 1) r).1 + 1 - 1) =
              (i + 1) + (countAttempts (acquireGo outcome lk lid ttl d (i + 1) r).1 - 1) := by
            omega
          rw [this]
          exact hsucc
        · intro j hj
          rw [hcount] at hj
          match j with
          | 0 => simpa using hi
          | j' + 1 =>
            have : i + (j' + 1) = (i + 1) + j' := by omega
            rw [this]
            exact hprev j' (by omega)

/-- C2: `acquire` performs at most `retryCount + 1` strictly sequential
attempts on `lockKey = 'lock:' + key`, each separated by a single
`retryDelayMs` wait; it returns `null` (no thrown error) exactly when every
attempt fails, and otherwise returns, at the first successful attempt, a
handle bound to `(lockKey, lockId)`. -/
theorem c2_acquire_retry_loop (outcome : Nat → Bool) (key lockId : String)
    (retryCount retryDelayMs ttlMs : Nat) :
    wellFormedTrace ("lock:" ++ key) lockId ttlMs retryDelayMs
      (acquire outcome key lockId retryCount retryDelayMs ttlMs).1 = true
    ∧ countAttempts (acquire outcome key lockId retryCount retryDelayMs ttlMs).1
        ≤ retryCount + 1
    ∧ ((acquire outcome key lockId retryCount retryDelayMs ttlMs).2 = none ↔
        ∀ j, j ≤ retryCount → outcome j = false)
    ∧ (∀ h, (acquire outcome key lockId retryCount retryDelayMs ttlMs).2 = some h →
        h = ⟨"lock:" ++ key, lockId⟩
        ∧ outcome (countAttempts
            (acquire outcome key lockId retryCount retryDelayMs ttlMs).1 - 1) = true
        ∧ ∀ j, j < countAttempts
            (acquire outcome key lockId retryCount retryDelayMs ttlMs).1 - 1 →
            outcome j = false) := by
  obtain ⟨hwf, _, hhi, hnone, hsome⟩ :=
    acquireGo_spec outcome ("lock:" ++ key) lockId ttlMs retryDelayMs retryCount 0
  refine ⟨hwf, hhi, ?_, ?_⟩
  · simpa using hnone
  · intro h hh
    obtain ⟨hhe, hsucc, hprev⟩ := hsome h hh
    exact ⟨hhe, by simpa using hsucc, fun j hj => by simpa using hprev j hj⟩

/-- Concrete instantiation of `c2_acquire_retry_loop`: the first attempt
fails and the second succeeds, so the handle is returned after exactly two
attempts separated by one wait. -/
theorem c2_acquire_retry_loop_witness :
    (acquire (fun i => i == 1) "r" "id0" 3 200 10000).2 = some ⟨"lock:r", "id0"⟩
    ∧ countAttempts (acquire (fun i => i == 1) "r" "id0" 3 200 10000).1 = 2
    ∧ (fun i : Nat => i == 1) (countAttempts
        (acquire (fun i => i == 1) "r" "id0" 3 200 10000).1 - 1) = true :=
  have hres : (acquire (fun i => i == 1) "r" "id0" 3 200 10000).2 =
      some ⟨"lock:r", "id0"⟩ := by decide
  ⟨hres, by decide,
   ((c2_acquire_retry_loop (fun i => i == 1) "r" "id0" 3 200 10000).2.2.2
      ⟨"lock:r", "id0"⟩ hres).2.1⟩

/-! ### RedisLockService.withLock

`withLock(key, fn, options)` awaits `acquire`; on `null` it throws
`Error('Failed to acquire lock for key: ' + key)` without calling `fn`;
otherwise it runs `fn` inside `try { return await fn(); } finally
{ await lock.release(); }`, so `release` runs exactly once on both paths and
an exception from `fn` is rethrown after the release (the handle's `release`
itself never throws).  The outcome of `acquire` and the behaviour of `fn`
are parameters; the calls made are recorded as an event trace. -/

inductive WLEvent where
  | callFn
  | releaseEv
deriving Repr, DecidableEq

inductive WLError (E : Type) where
  | lockNotAcquired (key : String)
  | fnError (e : E)
deriving Repr

def withLock {E V : Type} (key : String) (acq : Option LockHandle)
    (fnResult : Except E V) : List WLEvent × Except (WLError E) V :=
  match acq with
  | none => ([], .error (.lockNotAcquired key))
  | some _ =>
    match fnResult with
    | .ok v => ([.callFn, .releaseEv], .ok v)
    | .error e => ([.callFn, .releaseEv], .error (.fnError e))

/-- C3: when acquisition yields no lock, `withLock` fails with the typed
"lock not acquired" error and never calls `fn` or `release`; when
acquisition succeeds, the trace is exactly one `fn` call followed by one
`release`, the result is `fn`'s value on normal return, and `fn`'s exception
is rethrown (wrapped as the propagated error) after the release. -/
theorem c3_withLock_always_releases {E V : Type} (key : String)
    (acq : Option LockHandle) (fnResult : Except E V) :
    (acq = none →
      (withLock key acq fnResult).1 = []
      ∧ (withLock key acq fnResult).2 = .error (.lockNotAcquired key))
    ∧ (∀ h, acq = some h →
        (withLock key acq fnResult).1 = [WLEvent.callFn, WLEvent.releaseEv]
        ∧ (∀ v, fnResult = .ok v → (withLock key acq fnResult).2 = .ok v)
        ∧ (∀ e, fnResult = .error e →
            (withLock key acq fnResult).2 = .error (.fnError e))) := by
  constructor
  · intro hnone
    subst hnone
    exact ⟨rfl, rfl⟩
  · intro h hsome
    subst hsome
    refine ⟨?_, ?_, ?_⟩
    · cases fnResult <;> rfl
    · intro v hv; subst hv; rfl
    · intro e he; subst he; rfl

/-- Concrete instantiation of `c3_withLock_always_releases`: with a handle
and a throwing `fn`, the trace contains exactly one release after the `fn`
call and the exception is propagated. -/
theorem c3_withLock_always_releases_witness :
    (withLock "r" (some ⟨"lock:r", "id0"⟩) (.error "boom" : Except String Nat)).1
      = [WLEvent.callFn, WLEvent.releaseEv]
    ∧ (withLock "r" (some ⟨"lock:r", "id0"⟩) (.error "boom" : Except String Nat)).2
      = .error (.fnError "boom")
    ∧ (withLock "r" (none : Option LockHandle) (.ok 7 : Except String Nat)).2
      = .error (.lockNotAcquired "r") :=
  ⟨((c3_withLock_always_releases "r" (some ⟨"lock:r", "id0"⟩)
      (.error "boom" : Except String Nat)).2 ⟨"lock:r", "id0"⟩ rfl).1,
   ((c3_withLock_always_releases "r" (some ⟨"lock:r", "id0"⟩)
      (.error "boom" : Except String Nat)).2 ⟨"lock:r", "id0"⟩ rfl).2.2 "boom" rfl,
   ((c3_withLock_always_releases "r" (none : Option LockHandle)
      (.ok 7 : Except String Nat)).1 rfl).2⟩

/-! ### RedisBaseService: the connection registry

`clients` is a `Map<string, Redis | Cluster>`; clients are opaque and
identified by a value of an arbitrary type.  `mapGet`/`mapSet`/`mapUpdate`
model the JS `Map` operations on an insertion-ordered association list with
unique keys. -/

def mapGet {α : Type} : List (String × α) → String → Option α
  | [], _ => none
  | p :: rest, name => if p.1 = name then some p.2 else mapGet rest name

def mapSet {α : Type} : List (String × α) → String → α → List (String × α)
  | [], name, v => [(name, v)]
  | p :: rest, name, v =>
    if p.1 = name then (name, v) :: rest else p :: mapSet rest name v

def mapUpdate {α : Type} : List (String × α) → String → (α → α) → List (String × α)
  | [], _, _ => []
  | p :: rest, name, f =>
    if p.1 = name then (p.1, f p.2) :: rest else p :: mapUpdate rest name f

theorem mapGet_mapSet_self {α : Type} (m : List (String × α)) (name : String) (v : α) :
    mapGet (mapSet m name v) name = some v := by
  induction m with
  | nil => simp [mapGet, mapSet]
  | cons p rest ih =>
    by_cases h : p.1 = name
    · simp [mapGet, mapSet, h]
    · simp [mapGet, mapSet, h, ih]

theorem mapGet_mapUpdate {α : Type} (m : List (String × α)) (name n2 : String)
    (f : α → α) :
    mapGet (mapUpdate m name f) n2 =
      if n2 = name then (mapGet m n2).map f else mapGet m n2 := by
  induction m with
  | nil => simp [mapGet, mapUpdate]
  | cons p rest ih =>
    by_cases h : p.1 = name
    · by_cases h2 : n2 = name
      · simp [mapGet, mapUpdate, h, h2]
      · have hpn : ¬ p.1 = n2 := by rw [h]; exact fun hc => h2 hc.symm
        have h3 : ¬ name = n2 := fun hc => h2 hc.symm
        simp [mapGet, mapUpdate, h, h2, hpn, h3]
    · by_cases hp : p.1 = n2
      · have h2 : ¬ n2 = name := by rw [← hp]; exact fun hc => h (hc)
        simp [mapGet, mapUpdate, h, hp, h2]
      · simp [mapGet, mapUpdate, h, hp, ih]

/-- Errors of the library (`src/redis.errors.ts`), restricted to the
constructors the registry can produce. -/
inductive RedisErr where
  | clientNotFound (clientName : String)
  | timeoutErr (operation : String) (timeoutMs : Nat)
deriving Repr, DecidableEq

/-- `RedisBaseService.addClient`: `this.clients.set(name, client)`. -/
def addClient {C : Type} (m : List (String × C)) (name : String) (c : C) :
    List (String × C) :=
  mapSet m name c

/-- `RedisBaseService.getClient`: `this.clients.get(name)`, throwing
`RedisClientNotFoundError(name)` when absent. -/
def getClient {C : Type} (m : List (String × C)) (name : String) :
    Except RedisErr C :=
  match mapGet m name with
  | some c => .ok c
  | none => .error (.clientNotFound name)

/-- C5: after `addClient n c`, `getClient n` returns exactly `c`; on an
unregistered name `getClient` fails with `clientNotFound` carrying that
name; and a successful `getClient` only ever returns the client registered
under the requested name, never a different or default one. -/
theorem c5_registry_resolve {C : Type} (m : List (String × C)) (n : String) (c : C) :
    getClient (addClient m n c) n = .ok c
    ∧ (mapGet m n = none → getClient m n = .error (.clientNotFound n))
    ∧ (∀ c2, getClient m n = .ok c2 → mapGet m n = some c2) := by
  refine ⟨?_, ?_, ?_⟩
  · rw [getClient, addClient, mapGet_mapSet_self]
  · intro hnone
    rw [getClient, hnone]
  · intro c2 hok
    rw [getClient] at hok
    cases hm : mapGet m n with
    | none => rw [hm] at hok; simp at hok
    | some c3 =>
      rw [hm] at hok
      simp at hok
      rw [hok]

/-- Concrete instantiation of `c5_registry_resolve`: register client `42`
under `"x"` in the empty registry, then resolve it; resolving `"missing"`
fails with the name. -/
theorem c5_registry_resolve_witness :
    getClient (addClient ([] : List (String × Nat)) "x" 42) "x" = .ok 42
    ∧ getClient ([] : List (String × Nat)) "missing"
        = .error (.clientNotFound "missing") :=
  ⟨(c5_registry_resolve ([] : List (String × Nat)) "x" 42).1,
   (c5_registry_resolve ([] : List (String × Nat)) "missing" 42).2.1 rfl⟩

/-! ### RedisBaseService.onModuleDestroy

The method builds `closePromises = Promise.all(clients.map(c =>
c.quit().catch(log)))` — every individual quit failure is caught and logged
inside the map, so `closePromises` itself never rejects — then races it
against a timer that rejects with `RedisTimeoutError('shutdown', 5000)`.
The `catch` logs a warning for a `RedisTimeoutError` and rethrows anything
else; afterwards `this.clients.clear()` runs.  `quitFail c` gives the
failure of client `c`'s quit (if any); `race` says which side of the race
settled first. -/

inductive RaceOutcome where
  | closesFinished
  | timeoutFired
deriving Repr, DecidableEq

structure DestroyResult (C : Type) where
  clients : List (String × C)
  loggedErrors : List String
  warnedTimeout : Bool
  threw : Bool

def DEFAULT_SHUTDOWN_TIMEOUT_MS : Nat := 5000

def onModuleDestroyBase {C : Type} (clients : List (String × C))
    (quitFail : C → Option String) (race : RaceOutcome) : DestroyResult C :=
  let closeLogs := clients.filterMap (fun p =>
    (quitFail p.2).map (fun m => "Error closing Redis connection: " ++ m))
  let raceErr : Option RedisErr :=
    match race with
    | .closesFinished => none
    | .timeoutFired => some (.timeoutErr "shutdown" DEFAULT_SHUTDOWN_TIMEOUT_MS)
  match raceErr with
  | none =>
    { clients := [], loggedErrors := closeLogs, warnedTimeout := false, threw := false }
  | some (.timeoutErr _ _) =>
    { clients := [], loggedErrors := closeLogs, warnedTimeout := true, threw := false }
  | some _ =>
    -- a non-timeout rejection would be rethrown before `clear()`; the race
    -- can only reject with the timeout error, so this branch is dead
    { clients := clients, loggedErrors := closeLogs, warnedTimeout := false, threw := true }

/-- C6: bulk shutdown always leaves the registry map empty and surfaces no
error, whichever side of the race settles first and however the individual
quits fail; when the timeout fires, only a warning is recorded. -/
theorem c6_shutdown_clears_registry {C : Type} (clients : List (String × C))
    (quitFail : C → Option String) (race : RaceOutcome) :
    (onModuleDestroyBase clients quitFail race).clients = []
    ∧ (onModuleDestroyBase clients quitFail race).threw = false
    ∧ (race = .timeoutFired →
        (onModuleDestroyBase clients quitFail race).warnedTimeout = true) := by
  cases race with
  | closesFinished => exact ⟨rfl, rfl, fun hc => by simp at hc⟩
  | timeoutFired => exact ⟨rfl, rfl, fun _ => rfl⟩

/-- Concrete instantiation of `c6_shutdown_clears_registry`: one client
whose quit fails, with the timeout firing first. -/
theorem c6_shutdown_clears_registry_witness :
    (onModuleDestroyBase [("default", 1)] (fun _ => some "quit failed")
        RaceOutcome.timeoutFired).clients = ([] : List (String × Nat))
    ∧ (onModuleDestroyBase [("default", 1)] (fun _ => some "quit failed")
        RaceOutcome.timeoutFired).threw = false
    ∧ (onModuleDestroyBase [("default", 1)] (fun _ => some "quit failed")
        RaceOutcome.timeoutFired).warnedTimeout = true :=
  have h := c6_shutdown_clears_registry [("default", (1 : Nat))]
    (fun _ => some "quit failed") RaceOutcome.timeoutFired
  ⟨h.1, h.2.1, h.2.2 rfl⟩

/-! ### RedisPubSubService

State of the manager: the constructor-supplied `mainClients` map, the lazily
filled `subscriberClients` side table, and the ever-growing
`cleanupFunctions` array.  A subscriber connection is identified by the
`clientId` produced by `mainClient.duplicate()` and carries its attached
handlers and its subscribed channels/patterns.  Fresh ids come from the
counters. -/

structure SubConn where
  clientId : Nat
  handlers : List Nat
  phandlers : List Nat
  channels : List String
  patterns : List String
deriving Repr, DecidableEq

structure CleanupRec where
  name : String
  handlerId : Nat
  isPattern : Bool
  targets : List String
deriving Repr, DecidableEq

structure PubSubState where
  mainClients : List (String × Nat)
  subscriberClients : List (String × SubConn)
  cleanupFunctions : List CleanupRec
  nextClientId : Nat
  nextHandlerId : Nat
deriving Repr, DecidableEq

structure GetSubResult where
  state : PubSubState
  result : Except String Nat
  duplicateCalls : Nat

/-- `RedisPubSubService.getSubscriberClient`: return the cached subscriber
connection for `name` if present; otherwise resolve the main client
(throwing `Main Redis client "name" not found` when absent), duplicate it,
attach the diagnostic `error`/`connect` listeners, cache and return it.
`duplicateCalls` counts invocations of `mainClient.duplicate()`. -/
def getSubscriberClient (s : PubSubState) (name : String) : GetSubResult :=
  match mapGet s.subscriberClients name with
  | some conn => { state := s, result := .ok conn.clientId, duplicateCalls := 0 }
  | none =>
    match mapGet s.mainClients name with
    | none =>
      { state := s,
        result := .error ("Main Redis client \"" ++ name ++ "\" not found"),
        duplicateCalls := 0 }
    | some _ =>
      let conn : SubConn :=
        { clientId := s.nextClientId, handlers := [], phandlers := [],
          channels := [], patterns := [] }
      { state := { s with
          subscriberClients := mapSet s.subscriberClients name conn,
          nextClientId := s.nextClientId + 1 },
        result := .ok conn.clientId,
        duplicateCalls := 1 }

/-- `RedisPubSubService.subscribe`: get the subscriber connection, issue
`client.subscribe(...channelArray)`, attach a fresh `message` handler, push
the cleanup closure onto `cleanupFunctions` and return it. -/
def pubsubSubscribe (s : PubSubState) (channels : List String) (clientName : String) :
    PubSubState × Except String CleanupRec :=
  let g := getSubscriberClient s clientName
  match g.result with
  | .error e => (g.state, .error e)
  | .ok _ =>
    let s1 := g.state
    let hid := s1.nextHandlerId
    let cleanupRec : CleanupRec :=
      { name := clientName, handlerId := hid, isPattern := false, targets := channels }
    ({ s1 with
        subscriberClients := mapUpdate s1.subscriberClients clientName (fun c =>
          { c with channels := c.channels ++ channels,
                   handlers := c.handlers ++ [hid] }),
        nextHandlerId := s1.nextHandlerId + 1,
        cleanupFunctions := s1.cleanupFunctions ++ [cleanupRec] },
     .ok cleanupRec)

/-- `RedisPubSubService.psubscribe`: same shape as `subscribe` with
pattern-subscribe semantics and a `pmessage` handler. -/
def pubsubPsubscribe (s : PubSubState) (patterns : List String) (clientName : String) :
    PubSubState × Except String CleanupRec :=
  let g := getSubscriberClient s clientName
  match g.result with
  | .error e => (g.state, .error e)
  | .ok _ =>
    let s1 := g.state
    let hid := s1.nextHandlerId
    let cleanupRec : CleanupRec :=
      { name := clientName, handlerId := hid, isPattern := true, targets := patterns }
    ({ s1 with
        subscriberClients := mapUpdate s1.subscriberClients clientName (fun c =>
          { c with patterns := c.patterns ++ patterns,
                   phandlers := c.phandlers ++ [hid] }),
        nextHandlerId := s1.nextHandlerId + 1,
        cleanupFunctions := s1.cleanupFunctions ++ [cleanupRec] },
     .ok cleanupRec)

/-- The teardown closure returned by `subscribe`/`psubscribe`: `client.off`
removes the handler, `unsubscribe`/`punsubscribe` drops exactly the
subscription's channels or patterns.  It touches nothing else: in
particular it does not remove itself from `cleanupFunctions` and does not
change the subscriber-connection table's entries. -/
def runCleanup (s : PubSubState) (r : CleanupRec) : PubSubState :=
  { s with subscriberClients := mapUpdate s.subscriberClients r.name (fun c =>
      if r.isPattern then
        { c with
            phandlers := c.phandlers.filter (fun h => h != r.handlerId),
            patterns := c.patterns.filter (fun p => !(r.targets.contains p)) }
      else
        { c with
            handlers := c.handlers.filter (fun h => h != r.handlerId),
            channels := c.channels.filter (fun ch => !(r.targets.contains ch)) }) }

structure PubSubDestroyResult where
  state : PubSubState
  ranCleanups : List CleanupRec
  loggedErrors : List String
  threw : Bool

/-- `RedisPubSubService.onModuleDestroy`:
`await Promise.all(cleanupFunctions.map(fn => fn().catch(() => {})))` — every
outstanding teardown runs and a rejected teardown is swallowed by the empty
catch, producing no log entry (`cleanupFail r` gives teardown `r`'s failure);
then every subscriber client is `quit()`, a failed quit being caught and
logged; then `subscriberClients.clear()`. -/
def pubsubDestroy (s : PubSubState) (cleanupFail : CleanupRec → Option String)
    (quitFail : Nat → Option String) : PubSubDestroyResult :=
  let ran := s.cleanupFunctions
  let s1 := ran.foldl runCleanup s
  let closeLogs := s1.subscriberClients.filterMap (fun p =>
    (quitFail p.2.clientId).map (fun m => "Error closing subscriber connection: " ++ m))
  { state := { s1 with subscriberClients := [] },
    ranCleanups := ran,
    loggedErrors := closeLogs,
    threw := false }

/-! ### Message dispatch handlers

`messageHandler` (inside `subscribe`) checks `channelArray.includes(channel)`
before invoking the callback and wraps the invocation in `try/catch` that
logs; `pmessageHandler` (inside `psubscribe`) wraps the invocation in the
same `try/catch` but performs no membership check on the requested
`patternArray`, which is in scope but never consulted. -/

structure DispatchResult where
  invoked : Bool
  logged : Option String
  propagated : Option String
deriving Repr, DecidableEq

def messageHandler (cb : String → String → Except String Unit)
    (channelArray : List String) (channel message : String) : DispatchResult :=
  if channelArray.contains channel then
    match cb channel message with
    | .ok _ => { invoked := true, logged := none, propagated := none }
    | .error e =>
      { invoked := true,
        logged := some ("Error in message handler for channel \"" ++ channel ++ "\": " ++ e),
        propagated := none }
  else { invoked := false, logged := none, propagated := none }

def pmessageHandler (cb : String → String → String → Except String Unit)
    (patternArray : List String) (pattern channel message : String) : DispatchResult :=
  match cb pattern channel message with
  | .ok _ => { invoked := true, logged := none, propagated := none }
  | .error e =>
    { invoked := true,
      logged := some ("Error in pattern message handler for \"" ++ pattern ++ "\": " ++ e),
      propagated := none }

/-- The transport's read loop: deliver queued messages in order to a
handler; an exception escaping the handler tears the loop down at that
message. -/
def runDispatchLoop (handler : String × String → DispatchResult) :
    List (String × String) → List DispatchResult
  | [] => []
  | m :: rest =>
    let r := handler m
    match r.propagated with
    | some _ => [r]
    | none => r :: runDispatchLoop handler rest

/-- C4 fails on the code: `psubscribe`'s `pmessage` handler invokes the
callback for a pattern outside the requested set, so it does not apply the
membership filtering that `subscribe` applies to channels. -/
theorem c4_pattern_filter_counterexample :
    (pmessageHandler (fun _ _ _ => .ok ()) ["events:*"] "other:*" "other:x" "m").invoked
      = true
    ∧ (["events:*"].contains "other:*") = false :=
  ⟨rfl, by decide⟩

/-- C4 (amended): the `pmessage` handler registered by `psubscribe` invokes
the callback for every delivered pattern message, regardless of the
requested pattern set, applying only the exception containment; the
membership filtering exists only in `subscribe`'s channel handler, whose
invocation equals the `includes` test. -/
theorem c4_pattern_dispatch_unfiltered
    (cb : String → String → String → Except String Unit)
    (patternArray : List String) (pattern channel message : String) :
    (pmessageHandler cb patternArray pattern channel message).invoked = true
    ∧ (pmessageHandler cb patternArray pattern channel message).propagated = none
    ∧ ∀ (cb2 : String → String → Except String Unit)
        (channelArray : List String) (ch msg : String),
        (messageHandler cb2 channelArray ch msg).invoked = channelArray.contains ch := by
  refine ⟨?_, ?_, ?_⟩
  · cases h : cb pattern channel message <;> simp [pmessageHandler, h]
  · cases h : cb pattern channel message <;> simp [pmessageHandler, h]
  · intro cb2 channelArray ch msg
    by_cases hmem : ch ∈ channelArray
    · have hc : channelArray.contains ch = true := by simpa using hmem
      rw [hc]
      cases h : cb2 ch msg <;> simp [messageHandler, hmem, h]
    · have hc : channelArray.contains ch = false := by simpa using hmem
      rw [hc]
      simp [messageHandler, hmem]

/-- C7: with a registered main connection, two successive
`getSubscriberClient` calls return the same subscriber client and
`duplicate()` runs at most once; with neither a cached subscriber nor a
registered main connection, the call fails with the "not found" error and
leaves the state (in particular the subscriber table) untouched. -/
theorem c7_subscriber_duplicate_once (s : PubSubState) (n : String) :
    (∀ m, mapGet s.mainClients n = some m →
      ∃ c, (getSubscriberClient s n).result = .ok c
        ∧ (getSubscriberClient (getSubscriberClient s n).state n).result = .ok c
        ∧ (getSubscriberClient s n).duplicateCalls
            + (getSubscriberClient (getSubscriberClient s n).state n).duplicateCalls ≤ 1)
    ∧ (mapGet s.mainClients n = none → mapGet s.subscriberClients n = none →
        (getSubscriberClient s n).result
          = .error ("Main Redis client \"" ++ n ++ "\" not found")
        ∧ (getSubscriberClient s n).state = s) := by
  constructor
  · intro m hm
    cases hsub : mapGet s.subscriberClients n with
    | some conn =>
      refine ⟨conn.clientId, ?_, ?_, ?_⟩ <;> simp [getSubscriberClient, hsub]
    | none =>
      have h1 : getSubscriberClient s n =
          { state := { s with
              subscriberClients := mapSet s.subscriberClients n
                ⟨s.nextClientId, [], [], [], []⟩,
              nextClientId := s.nextClientId + 1 },
            result := .ok s.nextClientId,
            duplicateCalls := 1 } := by
        simp [getSubscriberClient, hsub, hm]
      refine ⟨s.nextClientId, ?_, ?_, ?_⟩
      · rw [h1]
      · rw [h1]
        simp [getSubscriberClient, mapGet_mapSet_self]
      · rw [h1]
        simp [getSubscriberClient, mapGet_mapSet_self]
  · intro hmain hsub
    constructor <;> simp [getSubscriberClient, hsub, hmain]

/-- A one-connection manager state: main client `0` registered as
`"default"`, nothing else. -/
def pubsubS7 : PubSubState :=
  { mainClients := [("default", 0)], subscriberClients := [],
    cleanupFunctions := [], nextClientId := 1, nextHandlerId := 0 }

/-- Concrete instantiation of `c7_subscriber_duplicate_once` on `pubsubS7`:
both calls for `"default"` agree with at most one duplication, and the call
for the unregistered `"other"` fails without touching the state. -/
theorem c7_subscriber_duplicate_once_witness :
    (∃ c, (getSubscriberClient pubsubS7 "default").result = .ok c
      ∧ (getSubscriberClient
          (getSubscriberClient pubsubS7 "default").state "default").result = .ok c
      ∧ (getSubscriberClient pubsubS7 "default").duplicateCalls
          + (getSubscriberClient
              (getSubscriberClient pubsubS7 "default").state "default").duplicateCalls
          ≤ 1)
    ∧ (getSubscriberClient pubsubS7 "other").result
        = .error ("Main Redis client \"" ++ "other" ++ "\" not found")
    ∧ (getSubscriberClient pubsubS7 "other").state = pubsubS7 :=
  ⟨(c7_subscriber_duplicate_once pubsubS7 "default").1 0 rfl,
   ((c7_subscriber_duplicate_once pubsubS7 "other").2 rfl rfl).1,
   ((c7_subscriber_duplicate_once pubsubS7 "other").2 rfl rfl).2⟩

/-- C8: `subscribe`'s message handler never lets a callback exception
escape, so the transport's dispatch loop processes every queued message —
the loop run equals a plain map over the messages, unaffected by callback
failures on earlier messages of the same or of different channels. -/
theorem c8_callback_errors_contained (cb : String → String → Except String Unit)
    (channelArray : List String) (msgs : List (String × String)) :
    runDispatchLoop (fun m => messageHandler cb channelArray m.1 m.2) msgs
      = msgs.map (fun m => messageHandler cb channelArray m.1 m.2)
    ∧ ∀ ch msg, (messageHandler cb channelArray ch msg).propagated = none := by
  have hprop : ∀ ch msg, (messageHandler cb channelArray ch msg).propagated = none := by
    intro ch msg
    by_cases hmem : ch ∈ channelArray
    · cases h : cb ch msg <;> simp [messageHandler, hmem, h]
    · simp [messageHandler, hmem]
  refine ⟨?_, hprop⟩
  induction msgs with
  | nil => rfl
  | cons m rest ih =>
    simp only [runDispatchLoop, List.map]
    rw [hprop m.1 m.2]
    simp only
    rw [ih]

def connKeyId (p : String × SubConn) : String × Nat := (p.1, p.2.clientId)

theorem mapUpdate_map_keyId (l : List (String × SubConn)) (name : String)
    (f : SubConn → SubConn) (hf : ∀ c, (f c).clientId = c.clientId) :
    (mapUpdate l name f).map connKeyId = l.map connKeyId := by
  induction l with
  | nil => rfl
  | cons p rest ih =>
    by_cases h : p.1 = name
    · simp [mapUpdate, h, connKeyId, hf]
    · simp only [mapUpdate, if_neg h, List.map_cons]
      rw [ih]

theorem runCleanup_keyIds (s : PubSubState) (r : CleanupRec) :
    (runCleanup s r).subscriberClients.map connKeyId
      = s.subscriberClients.map connKeyId := by
  apply mapUpdate_map_keyId
  intro c
  cases r.isPattern <;> simp

theorem foldl_runCleanup_keyIds (recs : List CleanupRec) :
    ∀ s : PubSubState,
      ((recs.foldl runCleanup s).subscriberClients).map connKeyId
        = s.subscriberClients.map connKeyId := by
  induction recs with
  | nil => intro s; rfl
  | cons r rest ih =>
    intro s
    simp only [List.foldl]
    rw [ih, runCleanup_keyIds]

theorem pubsubDestroy_loggedErrors (s : PubSubState)
    (cleanupFail : CleanupRec → Option String) (quitFail : Nat → Option String) :
    (pubsubDestroy s cleanupFail quitFail).loggedErrors
      = s.subscriberClients.filterMap (fun p =>
          (quitFail p.2.clientId).map
            (fun m => "Error closing subscriber connection: " ++ m)) := by
  have key : ∀ l : List (String × SubConn),
      l.filterMap (fun p => (quitFail p.2.clientId).map
          (fun m => "Error closing subscriber connection: " ++ m))
        = (l.map connKeyId).filterMap (fun q => (quitFail q.2).map
            (fun m => "Error closing subscriber connection: " ++ m)) := by
    intro l
    rw [List.filterMap_map]
    rfl
  show ((s.cleanupFunctions.foldl runCleanup s).subscriberClients).filterMap _ = _
  rw [key, foldl_runCleanup_keyIds, ← key]

/-- C9 fails on the code: the shutdown path swallows a failing teardown with
an empty `catch`, producing no log entry for it — here a teardown rejecting
with "punsubscribe failed" runs during shutdown and the logged-error list
stays empty (while the failure is still not propagated). -/
theorem c9_teardown_failure_not_logged :
    (pubsubDestroy
        ⟨[("default", 0)], [("default", ⟨1, [0], [], ["c1"], []⟩)],
         [⟨"default", 0, false, ["c1"]⟩], 2, 1⟩
        (fun _ => some "punsubscribe failed") (fun _ => none)).ranCleanups
      = [⟨"default", 0, false, ["c1"]⟩]
    ∧ (pubsubDestroy
        ⟨[("default", 0)], [("default", ⟨1, [0], [], ["c1"], []⟩)],
         [⟨"default", 0, false, ["c1"]⟩], 2, 1⟩
        (fun _ => some "punsubscribe failed") (fun _ => none)).loggedErrors = []
    ∧ (pubsubDestroy
        ⟨[("default", 0)], [("default", ⟨1, [0], [], ["c1"], []⟩)],
         [⟨"default", 0, false, ["c1"]⟩], 2, 1⟩
        (fun _ => some "punsubscribe failed") (fun _ => none)).threw = false := by
  refine ⟨rfl, ?_, rfl⟩
  rw [pubsubDestroy_loggedErrors]
  rfl

/-- C9 (amended): shutdown runs every outstanding teardown with failures
swallowed silently — the logged errors are independent of which teardowns
fail — then closes every subscriber connection with quit failures logged
and swallowed, and clears the subscriber table; nothing is propagated. -/
theorem c9_shutdown_drains_and_clears (s : PubSubState)
    (cleanupFail : CleanupRec → Option String) (quitFail : Nat → Option String) :
    (pubsubDestroy s cleanupFail quitFail).ranCleanups = s.cleanupFunctions
    ∧ (pubsubDestroy s cleanupFail quitFail).threw = false
    ∧ (pubsubDestroy s cleanupFail quitFail).state.subscriberClients = []
    ∧ (∀ p ∈ s.subscriberClients, ∀ m, quitFail p.2.clientId = some m →
        ("Error closing subscriber connection: " ++ m)
          ∈ (pubsubDestroy s cleanupFail quitFail).loggedErrors)
    ∧ (∀ cf2, (pubsubDestroy s cleanupFail quitFail).loggedErrors
        = (pubsubDestroy s cf2 quitFail).loggedErrors) := by
  refine ⟨rfl, rfl, rfl, ?_, ?_⟩
  · intro p hp m hm
    rw [pubsubDestroy_loggedErrors, List.mem_filterMap]
    exact ⟨p, hp, by rw [hm]; rfl⟩
  · intro cf2
    rw [pubsubDestroy_loggedErrors, pubsubDestroy_loggedErrors]

/-- Concrete instantiation of `c9_shutdown_drains_and_clears`: one
subscriber connection whose quit fails; its close error is logged, the
table ends empty, and nothing is thrown. -/
theorem c9_shutdown_drains_and_clears_witness :
    (pubsubDestroy ⟨[("default", 0)], [("default", ⟨1, [], [], [], []⟩)], [], 2, 0⟩
        (fun _ => none) (fun _ => some "quit boom")).state.subscriberClients = []
    ∧ (pubsubDestroy ⟨[("default", 0)], [("default", ⟨1, [], [], [], []⟩)], [], 2, 0⟩
        (fun _ => none) (fun _ => some "quit boom")).threw = false
    ∧ ("Error closing subscriber connection: " ++ "quit boom")
        ∈ (pubsubDestroy ⟨[("default", 0)], [("default", ⟨1, [], [], [], []⟩)], [], 2, 0⟩
            (fun _ => none) (fun _ => some "quit boom")).loggedErrors :=
  have h := c9_shutdown_drains_and_clears
    ⟨[("default", 0)], [("default", ⟨1, [], [], [], []⟩)], [], 2, 0⟩
    (fun _ => none) (fun _ => some "quit boom")
  ⟨h.2.2.1, h.2.1,
   h.2.2.2.1 ("default", ⟨1, [], [], [], []⟩) (by simp) "quit boom" rfl⟩

/-- C10: invoking a subscription's teardown removes its handler and drops
its channels/patterns on the subscriber connection, but leaves the
`cleanupFunctions` list and the subscriber-connection table (names and
client identities) unchanged; `subscribe`/`psubscribe` append every returned
teardown to `cleanupFunctions`, so a later shutdown runs every teardown ever
returned, including ones already invoked. -/
theorem c10_cleanup_frame (s : PubSubState) (r : CleanupRec)
    (targets : List String) (clientName : String) :
    (runCleanup s r).cleanupFunctions = s.cleanupFunctions
    ∧ (runCleanup s r).subscriberClients.map connKeyId
        = s.subscriberClients.map connKeyId
    ∧ (∀ conn2, mapGet (runCleanup s r).subscriberClients r.name = some conn2 →
        (r.isPattern = false →
          r.handlerId ∉ conn2.handlers ∧ ∀ t ∈ r.targets, t ∉ conn2.channels)
        ∧ (r.isPattern = true →
          r.handlerId ∉ conn2.phandlers ∧ ∀ t ∈ r.targets, t ∉ conn2.patterns))
    ∧ (∀ rec2, (pubsubSubscribe s targets clientName).2 = .ok rec2 →
        rec2 ∈ ((pubsubSubscribe s targets clientName).1).cleanupFunctions)
    ∧ (∀ rec2, (pubsubPsubscribe s targets clientName).2 = .ok rec2 →
        rec2 ∈ ((pubsubPsubscribe s targets clientName).1).cleanupFunctions)
    ∧ (∀ (cleanupFail : CleanupRec → Option String) (quitFail : Nat → Option String),
        (pubsubDestroy (runCleanup s r) cleanupFail quitFail).ranCleanups
          = s.cleanupFunctions) := by
  refine ⟨rfl, runCleanup_keyIds s r, ?_, ?_, ?_, fun _ _ => rfl⟩
  · intro conn2 hconn
    rw [show (runCleanup s r).subscriberClients
          = mapUpdate s.subscriberClients r.name _ from rfl,
        mapGet_mapUpdate, if_pos rfl, Option.map_eq_some'] at hconn
    obtain ⟨conn, _, hf⟩ := hconn
    constructor
    · intro hpat
      rw [← hf]
      simp only [hpat, Bool.false_eq_true, if_false]
      constructor
      · simp [List.mem_filter]
      · intro t ht
        simp [List.mem_filter, ht]
    · intro hpat
      rw [← hf]
      simp only [hpat, if_true]
      constructor
      · simp [List.mem_filter]
      · intro t ht
        simp [List.mem_filter, ht]
  · intro rec2 hrec
    cases hg : (getSubscriberClient s clientName).result with
    | error e => simp [pubsubSubscribe, hg] at hrec
    | ok cid =>
      simp only [pubsubSubscribe, hg, Except.ok.injEq] at hrec ⊢
      rw [← hrec]
      simp
  · intro rec2 hrec
    cases hg : (getSubscriberClient s clientName).result with
    | error e => simp [pubsubPsubscribe, hg] at hrec
    | ok cid =>
      simp only [pubsubPsubscribe, hg, Except.ok.injEq] at hrec ⊢
      rw [← hrec]
      simp

/-- The state after one `subscribe(['c1'], cb, 'default')` on `pubsubS7`,
and the teardown it returned. -/
def pubsubS10 : PubSubState := (pubsubSubscribe pubsubS7 ["c1"] "default").1

def rec10 : CleanupRec := ⟨"default", 0, false, ["c1"]⟩

/-- Concrete instantiation of `c10_cleanup_frame`: the subscription's
teardown is registered, its invocation strips the handler and channel while
keeping the teardown list, and the subsequent shutdown still runs the
already-invoked teardown. -/
theorem c10_cleanup_frame_witness :
    (pubsubSubscribe pubsubS7 ["c1"] "default").2 = .ok rec10
    ∧ rec10 ∈ ((pubsubSubscribe pubsubS7 ["c1"] "default").1).cleanupFunctions
    ∧ (runCleanup pubsubS10 rec10).cleanupFunctions = pubsubS10.cleanupFunctions
    ∧ mapGet (runCleanup pubsubS10 rec10).subscriberClients "default"
        = some ⟨1, [], [], [], []⟩
    ∧ rec10.handlerId ∉ (⟨1, [], [], [], []⟩ : SubConn).handlers
    ∧ (pubsubDestroy (runCleanup pubsubS10 rec10) (fun _ => none)
        (fun _ => none)).ranCleanups = pubsubS10.cleanupFunctions :=
  have hmg : mapGet (runCleanup pubsubS10 rec10).subscriberClients "default"
      = some ⟨1, [], [], [], []⟩ := rfl
  have h := c10_cleanup_frame pubsubS10 rec10 ["c1"] "default"
  have hsub := c10_cleanup_frame pubsubS7 rec10 ["c1"] "default"
  ⟨rfl, hsub.2.2.2.1 rec10 rfl, h.1, hmg,
   ((h.2.2.1 ⟨1, [], [], [], []⟩ hmg).1 rfl).1,
   h.2.2.2.2.2 (fun _ => none) (fun _ => none)⟩

end NestjsRedis
